import Mathlib

/-!
Verification of the ClickHouse analytics client wrapper
(src/clickhouse_client.py) against its specification.

The development shallowly embeds the Python source:
pure code becomes Lean functions, the single HTTP round-trip of each
client method is abstracted as an oracle argument describing the
outcome of that call, and Python exceptions become explicit error
values (`Except` / `Option`).  Python truthiness tests that the source
performs (`if self._from_table:`, `if self._limit_count:`, list
non-emptiness) are modelled by explicit truthiness functions.
-/

/-! ## Query builder (`ClickHouseQuery`, source lines 209-286)

The builder's mutable fields (`__init__`, lines 212-220).  Field names
mirror the Python attribute names.  `_from_table` and `_limit_count`
are `Optional` in the source and start as `None`. -/

structure ClickHouseQuery where
  _select_cols : List String
  _from_table : Option String
  _where_conditions : List String
  _group_cols : List String
  _order_cols : List String
  _limit_count : Option Int
  _desc : Bool
deriving DecidableEq

/-- The freshly constructed builder of `ClickHouseQuery.__init__`. -/
def ClickHouseQuery.new : ClickHouseQuery :=
  ⟨[], none, [], [], [], none, false⟩

/-- `select(*cols)` (lines 222-225): extends the select list. -/
def ClickHouseQuery.select (q : ClickHouseQuery) (cols : List String) : ClickHouseQuery :=
  { q with _select_cols := q._select_cols ++ cols }

/-- `from_(table)` (lines 227-230): sets the single FROM target, last call wins. -/
def ClickHouseQuery.from_ (q : ClickHouseQuery) (table : String) : ClickHouseQuery :=
  { q with _from_table := some table }

/-- `where(*conditions)` (lines 232-235).  `where` is a Lean keyword,
hence the trailing underscore. -/
def ClickHouseQuery.where_ (q : ClickHouseQuery) (conditions : List String) : ClickHouseQuery :=
  { q with _where_conditions := q._where_conditions ++ conditions }

/-- `group_by(*cols)` (lines 237-240). -/
def ClickHouseQuery.group_by (q : ClickHouseQuery) (cols : List String) : ClickHouseQuery :=
  { q with _group_cols := q._group_cols ++ cols }

/-- `order_by(*cols, desc=False)` (lines 242-246): extends the column
list and overwrites the builder-wide `_desc` flag with this call's
`desc` argument (in Python a keyword argument defaulting to `False`;
here it is passed explicitly). -/
def ClickHouseQuery.order_by (q : ClickHouseQuery) (cols : List String) (desc : Bool) : ClickHouseQuery :=
  { q with _order_cols := q._order_cols ++ cols, _desc := desc }

/-- `limit(n)` (lines 248-251): stores the limit. -/
def ClickHouseQuery.limit (q : ClickHouseQuery) (n : Int) : ClickHouseQuery :=
  { q with _limit_count := some n }

/-- Python truthiness of an `Optional[str]`: `None` and `""` are falsy. -/
def optStrTruthy : Option String → Bool
  | none => false
  | some s => !s.isEmpty

/-- Python truthiness of an `Optional[int]`: `None` and `0` are falsy. -/
def optIntTruthy : Option Int → Bool
  | none => false
  | some n => n != 0

/-- `build()` (lines 253-286), translated statement by statement: a
local `parts` list receives each clause under the source's truthiness
test, in source order, and the result is the space-join of `parts`. -/
def ClickHouseQuery.build (q : ClickHouseQuery) : String :=
  let parts : List String := []
  let parts := if !q._select_cols.isEmpty then
      parts ++ ["SELECT " ++ String.intercalate ", " q._select_cols]
    else
      parts ++ ["SELECT *"]
  let parts := if optStrTruthy q._from_table then
      parts ++ ["FROM " ++ q._from_table.getD ""]
    else parts
  let parts := if !q._where_conditions.isEmpty then
      parts ++ ["WHERE " ++ String.intercalate " AND " q._where_conditions]
    else parts
  let parts := if !q._group_cols.isEmpty then
      parts ++ ["GROUP BY " ++ String.intercalate ", " q._group_cols]
    else parts
  let parts := if !q._order_cols.isEmpty then
      let order_str := String.intercalate ", " q._order_cols
      let order_str := if q._desc then order_str ++ " DESC" else order_str
      parts ++ ["ORDER BY " ++ order_str]
    else parts
  let parts := if optIntTruthy q._limit_count then
      parts ++ ["LIMIT " ++ toString (q._limit_count.getD 0)]
    else parts
  String.intercalate " " parts

/-! Clause-level view of `build()`, phrased the way the specification
describes the render: each clause is produced from its inputs when they
are non-empty and omitted otherwise, and the rendered string is the
space-join of the present clauses in the fixed order. -/

/-- The SELECT clause: `SELECT *` when no columns were selected,
otherwise the comma-join of the selected columns. -/
def selectClause (q : ClickHouseQuery) : String :=
  if !q._select_cols.isEmpty then "SELECT " ++ String.intercalate ", " q._select_cols
  else "SELECT *"

/-- The FROM clause, present when the stored table is truthy. -/
def fromClause (q : ClickHouseQuery) : Option String :=
  if optStrTruthy q._from_table then some ("FROM " ++ q._from_table.getD "") else none

/-- The WHERE clause: conditions joined with " AND ". -/
def whereClause (q : ClickHouseQuery) : Option String :=
  if !q._where_conditions.isEmpty then
    some ("WHERE " ++ String.intercalate " AND " q._where_conditions)
  else none

/-- The GROUP BY clause: comma-joined columns. -/
def groupClause (q : ClickHouseQuery) : Option String :=
  if !q._group_cols.isEmpty then
    some ("GROUP BY " ++ String.intercalate ", " q._group_cols)
  else none

/-- The ORDER BY clause: comma-joined columns, with " DESC" appended
when the builder-wide flag is set. -/
def orderClause (q : ClickHouseQuery) : Option String :=
  if !q._order_cols.isEmpty then
    some ("ORDER BY " ++
      (let s := String.intercalate ", " q._order_cols
       if q._desc then s ++ " DESC" else s))
  else none

/-- The LIMIT clause, present when the stored limit is truthy
(so absent both for `None` and for `0`). -/
def limitClause (q : ClickHouseQuery) : Option String :=
  if optIntTruthy q._limit_count then
    some ("LIMIT " ++ toString (q._limit_count.getD 0))
  else none

/-- The clauses of a rendered query, in the fixed order
SELECT, FROM, WHERE, GROUP BY, ORDER BY, LIMIT, empty ones omitted. -/
def clauseList (q : ClickHouseQuery) : List String :=
  selectClause q ::
    ((fromClause q).toList ++ (whereClause q).toList ++ (groupClause q).toList ++
      (orderClause q).toList ++ (limitClause q).toList)

/-- `build()` re-expressed through the clause-level view: the rendered
string is the space-join of the present clauses. -/
theorem build_eq_clauseList (q : ClickHouseQuery) :
    q.build = String.intercalate " " (clauseList q) := by
  unfold ClickHouseQuery.build clauseList selectClause fromClause whereClause
    groupClause orderClause limitClause
  cases h1 : q._select_cols.isEmpty <;>
    cases h2 : optStrTruthy q._from_table <;>
      cases h3 : q._where_conditions.isEmpty <;>
        cases h4 : q._group_cols.isEmpty <;>
          cases h5 : q._desc <;>
            cases h6 : q._order_cols.isEmpty <;>
              cases h7 : optIntTruthy q._limit_count <;>
                simp [h1, h2, h3, h4, h5, h6, h7]

/-- State-passing translation of the `build()` method: every Python
method takes `self` and, since no statement of the body assigns to a
field of `self`, the post-state threaded out is the incoming state.
The body is the same statement-by-statement translation as
`ClickHouseQuery.build`. -/
def ClickHouseQuery.buildM (q : ClickHouseQuery) : ClickHouseQuery × String :=
  let parts : List String := []
  let parts := if !q._select_cols.isEmpty then
      parts ++ ["SELECT " ++ String.intercalate ", " q._select_cols]
    else
      parts ++ ["SELECT *"]
  let parts := if optStrTruthy q._from_table then
      parts ++ ["FROM " ++ q._from_table.getD ""]
    else parts
  let parts := if !q._where_conditions.isEmpty then
      parts ++ ["WHERE " ++ String.intercalate " AND " q._where_conditions]
    else parts
  let parts := if !q._group_cols.isEmpty then
      parts ++ ["GROUP BY " ++ String.intercalate ", " q._group_cols]
    else parts
  let parts := if !q._order_cols.isEmpty then
      let order_str := String.intercalate ", " q._order_cols
      let order_str := if q._desc then order_str ++ " DESC" else order_str
      parts ++ ["ORDER BY " ++ order_str]
    else parts
  let parts := if optIntTruthy q._limit_count then
      parts ++ ["LIMIT " ++ toString (q._limit_count.getD 0)]
    else parts
  (q, String.intercalate " " parts)

/-- Claim C1: for every builder state, `build()` returns the non-empty
clauses joined by single spaces in the fixed order SELECT, FROM, WHERE,
GROUP BY, ORDER BY, LIMIT — the SELECT clause being "SELECT *" when no
columns were selected, WHERE conditions joined with " AND ", column
lists comma-joined with ", ", no trailing semicolon appended, and any
clause whose inputs are empty omitted — and in particular the builder
select(a,b).from_(t).where(a>1).limit(10) renders exactly
"SELECT a, b FROM t WHERE a>1 LIMIT 10". -/
theorem c1_build_renders_clauses :
    (∀ q : ClickHouseQuery, q.build = String.intercalate " " (clauseList q))
    ∧ ((((ClickHouseQuery.new.select ["a", "b"]).from_ "t").where_ ["a>1"]).limit 10).build
        = "SELECT a, b FROM t WHERE a>1 LIMIT 10" :=
  ⟨build_eq_clauseList, by decide⟩

/-- Claim C8: the `desc` flag is builder-wide, not per-call.  After two
`order_by` calls the accumulated column list is the concatenation of
both calls' columns, the stored flag is the second call's flag, and the
rendered ORDER BY clause covers all accumulated columns with " DESC"
appended exactly when the last call's flag was true, regardless of the
first call's flag. -/
theorem c8_order_by_desc_last_wins :
    ∀ (q : ClickHouseQuery) (cols1 : List String) (d1 : Bool) (cols2 : List String) (d2 : Bool),
      ((q.order_by cols1 d1).order_by cols2 d2)._order_cols = q._order_cols ++ cols1 ++ cols2
      ∧ ((q.order_by cols1 d1).order_by cols2 d2)._desc = d2
      ∧ orderClause ((q.order_by cols1 d1).order_by cols2 d2) =
          (if (q._order_cols ++ cols1 ++ cols2).isEmpty then none
           else some ("ORDER BY " ++ String.intercalate ", " (q._order_cols ++ cols1 ++ cols2)
                        ++ (if d2 then " DESC" else ""))) := by
  intro q cols1 d1 cols2 d2
  refine ⟨rfl, rfl, ?_⟩
  simp only [orderClause, ClickHouseQuery.order_by]
  cases h : q._order_cols ++ cols1 ++ cols2 <;>
    cases d2 <;>
      simp [h, String.append_assoc]

/-- Claim C9: a zero limit is treated as "no limit" because the render
checks truthiness of the stored limit, not whether it was set: a
builder after `limit(0)` renders exactly like the same builder with the
limit unset, and in both cases no LIMIT clause is produced. -/
theorem c9_limit_zero_no_clause :
    ∀ q : ClickHouseQuery,
      (q.limit 0).build = ClickHouseQuery.build { q with _limit_count := none }
      ∧ limitClause (q.limit 0) = none
      ∧ limitClause { q with _limit_count := none } = none := by
  intro q
  refine ⟨?_, rfl, rfl⟩
  rw [build_eq_clauseList, build_eq_clauseList]
  simp [clauseList, selectClause, fromClause, whereClause, groupClause, orderClause,
    limitClause, ClickHouseQuery.limit, optIntTruthy]

/-- Claim C10: `build()` is a pure observation of the builder state: in
the state-passing translation it returns the state unchanged, its
result agrees with the pure render, a second consecutive call returns
the same string, and a `build()` interleaved before a mutator call does
not affect the later render. -/
theorem c10_build_pure :
    ∀ q : ClickHouseQuery,
      (q.buildM).1 = q
      ∧ (q.buildM).2 = q.build
      ∧ (((q.buildM).1).buildM).2 = (q.buildM).2
      ∧ ∀ cols : List String, (((q.buildM).1).select cols).build = (q.select cols).build :=
  fun _ => ⟨rfl, rfl, rfl, fun _ => rfl⟩

/-! ## Row values

Rows are JSON-decoded / caller-supplied Python dicts: mappings from
column name to a loosely typed value.  A dict is modelled as an
association list in key insertion order with distinct keys
(`rowGet` takes the first binding, as a Python dict lookup would). -/

/-- A loosely typed Python value as it occurs in a row: string, int,
bool or None.  (JSON numbers in this client's uses are integers —
row counts and byte counts.) -/
inductive Value where
  | vInt (n : Int)
  | vStr (s : String)
  | vBool (b : Bool)
  | vNull
deriving DecidableEq

/-- Python `str(value)`. -/
def Value.pyStr : Value → String
  | .vInt n => toString n
  | .vStr s => s
  | .vBool b => if b then "True" else "False"
  | .vNull => "None"

/-- How the `csv` writer renders a field value: `None` becomes the
empty string, everything else its `str()`. -/
def Value.csvStr : Value → String
  | .vNull => ""
  | v => v.pyStr

/-- Numeric view of a value for Python's `/` operator: ints divide,
bools divide as 0/1 (bool is an int subclass), strings and None raise
`TypeError` (`none` here). -/
def Value.asNum : Value → Option Int
  | .vInt n => some n
  | .vBool b => some (if b then 1 else 0)
  | _ => none

/-- A row: a Python dict in key insertion order. -/
abbrev Row := List (String × Value)

/-- `row.get(col)`: first binding of the key, if any. -/
def rowGet (row : Row) (key : String) : Option Value :=
  (row.find? (fun p => p.1 == key)).map (fun p => p.2)

/-- `list(row.keys())`: the keys in insertion order. -/
def rowKeys (row : Row) : List String :=
  row.map (fun p => p.1)

/-! ## Client: `insert` (source lines 79-117)

The HTTP round trip is abstracted: `insertRequest` is the request the
method issues (its `X-ClickHouse-Query` header and its TabSeparated
body), `none` when the early return on an empty row list fires and no
request is made; `insert` combines it with a transport oracle giving
the outcome of that one request. -/

structure InsertRequest where
  query_header : String
  body : String
deriving DecidableEq

/-- The request built by `insert(table, rows)` (lines 79-111): columns
are the first row's keys; each row is rendered as
`str(row.get(col, ""))` per column (so a missing key contributes `""`
and keys outside the first row's key list are dropped), columns are
tab-joined within a row, rows newline-joined; the header statement
lists the columns comma-separated.  `none` when `rows` is empty. -/
def insertRequest (table : String) (rows : List Row) : Option InsertRequest :=
  match rows with
  | [] => none
  | first :: _ =>
    let columns := rowKeys first
    let values := rows.map (fun row =>
      columns.map (fun col => ((rowGet row col).map Value.pyStr).getD ""))
    let columns_str := String.intercalate ", " columns
    let values_lines := values.map (fun row => String.intercalate "\t" row)
    let insert_data := String.intercalate "\n" values_lines
    let sql := "INSERT INTO " ++ table ++ " (" ++ columns_str ++ ") FORMAT TabSeparated"
    some { query_header := sql, body := insert_data }

/-- `insert(table, rows)` with the transport abstracted: result of the
call (`Except` models the raised exception) paired with the request
that was issued, if any.  On an empty row list the method returns
`True` before any request is built (lines 81-82); otherwise a
transport error is re-raised as the generic
"ClickHouse insert failed: ..." exception (lines 116-117). -/
def insert (table : String) (rows : List Row)
    (transport : InsertRequest → Except String Unit) :
    Except String Bool × Option InsertRequest :=
  match insertRequest table rows with
  | none => (Except.ok true, none)
  | some req =>
    match transport req with
    | Except.ok _ => (Except.ok true, some req)
    | Except.error e => (Except.error ("ClickHouse insert failed: " ++ e), some req)

/-- Claim C2: for every non-empty row list, the insert request's
columns are exactly the first row's keys in insertion order, each value
is `str(value)` with "" for a key missing from a row (keys not in the
first row are dropped), values are tab-joined within a row and rows
newline-joined, and the X-ClickHouse-Query header is exactly
"INSERT INTO {table} ({columns}) FORMAT TabSeparated" with those same
columns comma-separated.  The concrete instance exhibits both the
missing-key and the extra-key behaviour. -/
theorem c2_insert_request_format :
    (∀ (table : String) (first : Row) (rest : List Row),
      insertRequest table (first :: rest) = some {
        query_header := "INSERT INTO " ++ table ++ " ("
          ++ String.intercalate ", " (rowKeys first) ++ ") FORMAT TabSeparated",
        body := String.intercalate "\n" ((first :: rest).map (fun row =>
          String.intercalate "\t" ((rowKeys first).map (fun col =>
            ((rowGet row col).map Value.pyStr).getD ""))))})
    ∧ insertRequest "t"
        [[("a", Value.vInt 1), ("b", Value.vStr "x")],
         [("b", Value.vStr "y"), ("c", Value.vInt 9)]]
      = some { query_header := "INSERT INTO t (a, b) FORMAT TabSeparated",
               body := "1\tx\n\ty" } := by
  refine ⟨fun table first rest => ?_, by decide⟩
  simp [insertRequest, List.map_map, Function.comp_def]

/-- Claim C7: inserting an empty row list returns `True` and issues no
HTTP request, whatever the transport would have done. -/
theorem c7_insert_empty_noop :
    ∀ (table : String) (transport : InsertRequest → Except String Unit),
      insert table [] transport = (Except.ok true, none) :=
  fun _ _ => rfl

/-! ## Client: connection and `query` (source lines 17-73)

`ClickHouseConnection` (lines 17-29) and the error shape of `query`.
The try-block of `query` (lines 61-73) wraps only
`urllib.error.URLError` (which subsumes `HTTPError`, so timeouts,
connection refusals and 4xx/5xx responses all land there); a body that
is not valid JSON makes `json.loads` raise `json.JSONDecodeError` — a
`ValueError`, not a `URLError` — which the except-clause does not
match, so it propagates unwrapped.  A parsed body that is not a JSON
object makes `result.get` raise `AttributeError`, likewise unwrapped. -/

structure ClickHouseConnection where
  host : String
  port : Int
  database : String
  user : String
  password : String
deriving DecidableEq

/-- `base_url` (lines 26-29). -/
def ClickHouseConnection.base_url (c : ClickHouseConnection) : String :=
  "http://" ++ c.host ++ ":" ++ toString c.port

/-- A JSON value, as returned by `json.loads`. -/
inductive Json where
  | jnull
  | jbool (b : Bool)
  | jnum (n : Int)
  | jstr (s : String)
  | jarr (xs : List Json)
  | jobj (fields : List (String × Json))

/-- `dict.get(key, default)` on a JSON object's fields. -/
def jsonGet (fields : List (String × Json)) (key : String) (dflt : Json) : Json :=
  match fields.find? (fun p => p.1 == key) with
  | some p => p.2
  | none => dflt

/-- The Python exceptions that escape the client's methods. -/
inductive PyErr where
  | exception (msg : String)
  | jsonDecodeError (msg : String)
  | attributeError
deriving DecidableEq

/-- Joint outcome of `urlopen` + `response.read` + `json.loads` for one
`query` call: a transport-layer `URLError` (carrying its `str`), a
JSON decode failure on the body, or the parsed JSON value. -/
inductive QueryOutcome where
  | urlError (msg : String)
  | jsonError (msg : String)
  | parsed (v : Json)

/-- `query(sql, format)` (lines 52-73), error shape: a `URLError` is
re-raised as `Exception("ClickHouse query failed: {e}")`; a JSON decode
failure propagates as the decode error itself; a parsed JSON object
yields its "data" member (defaulting to an empty array), while a
parsed non-object raises `AttributeError` from `result.get`. -/
def query : QueryOutcome → Except PyErr Json
  | .urlError m => Except.error (PyErr.exception ("ClickHouse query failed: " ++ m))
  | .jsonError m => Except.error (PyErr.jsonDecodeError m)
  | .parsed (Json.jobj fields) => Except.ok (jsonGet fields "data" (Json.jarr []))
  | .parsed _ => Except.error PyErr.attributeError

/-- Counterexample to claim C4: a response body that fails to parse as
JSON does not raise the generic query-failure kind — the decode error
itself escapes `query`, since the except-clause only matches
`urllib.error.URLError`. -/
theorem c4_parse_error_not_generic :
    query (QueryOutcome.jsonError "Expecting value: line 1 column 1")
        = Except.error (PyErr.jsonDecodeError "Expecting value: line 1 column 1")
    ∧ ¬ ∃ msg, query (QueryOutcome.jsonError "Expecting value: line 1 column 1")
        = Except.error (PyErr.exception msg) := by
  refine ⟨rfl, ?_⟩
  rintro ⟨msg, h⟩
  simp [query] at h

/-- Claim C4 as amended: every transport/HTTP failure (timeout,
connection refused, 4xx, 5xx — all surfacing as `URLError`) is raised
as the one generic query-failure exception whose message includes the
underlying cause, with no distinction between them; a failure to parse
the response body as JSON, however, propagates as the JSON decode
error itself, not as the generic kind. -/
theorem c4_error_kinds :
    ∀ m : String,
      query (QueryOutcome.urlError m)
          = Except.error (PyErr.exception ("ClickHouse query failed: " ++ m))
      ∧ query (QueryOutcome.jsonError m) = Except.error (PyErr.jsonDecodeError m) :=
  fun _ => ⟨rfl, rfl⟩

/-! ## Client: `create_table` (source lines 119-139) -/

/-- The `CREATE TABLE IF NOT EXISTS` statement rendered by
`create_table` (lines 127-133), with the f-string's exact newlines and
indentation. -/
def createTableSql (name schema engine order_by : String) : String :=
  "\n        CREATE TABLE IF NOT EXISTS " ++ name ++ " (\n            "
    ++ schema ++ "\n        )\n        ENGINE = " ++ engine
    ++ "\n        ORDER BY " ++ order_by ++ "\n        "

/-- `create_table(name, schema, engine, order_by)` (lines 119-139):
executes the rendered statement through `self.query` (abstracted as
`runQuery`) and converts success to `True` and any exception to
`False`.  The return type `Bool` (not `Except`) is the model of "never
raises": the bare `except Exception` catches every error the call can
produce. -/
def create_table (runQuery : String → Except PyErr (List Row))
    (name schema engine order_by : String) : Bool :=
  match runQuery (createTableSql name schema engine order_by) with
  | Except.ok _ => true
  | Except.error _ => false

/-- Claim C5: `create_table` never raises; it returns `True` exactly
when the rendered CREATE TABLE IF NOT EXISTS statement executed
successfully, and `False` (not an error) on any exception from the
underlying query. -/
theorem c5_create_table_bool :
    ∀ (runQuery : String → Except PyErr (List Row)) (name schema engine order_by : String),
      (create_table runQuery name schema engine order_by = true
        ↔ ∃ rows, runQuery (createTableSql name schema engine order_by) = Except.ok rows)
      ∧ (create_table runQuery name schema engine order_by = false
        ↔ ∃ e, runQuery (createTableSql name schema engine order_by) = Except.error e) := by
  intro runQuery name schema engine order_by
  unfold create_table
  cases h : runQuery (createTableSql name schema engine order_by) <;> simp

/-! ## Client: `table_stats` (source lines 153-174)

The whole body after the SQL literal sits in one try-block whose bare
`except Exception` returns the zeroed record, so any exception — from
the query itself or from the `/` divisions inside the dict literal —
yields the zeroed record.  Python's `/` is true division; the exact
quotient is modelled as a rational (for byte counts below 2^53 the
binary float result of dividing by 2^20 is this exact value). -/

structure TableStatsRecord where
  rows : Value
  compressed_size_mb : Rat
  uncompressed_size_mb : Rat
deriving DecidableEq

/-- The zeroed record `{"rows": 0, "compressed_size_mb": 0,
"uncompressed_size_mb": 0}` (lines 172 and 174). -/
def tableStatsZero : TableStatsRecord :=
  { rows := Value.vInt 0, compressed_size_mb := 0, uncompressed_size_mb := 0 }

/-- The try-block of `table_stats` applied to the query's result rows
(lines 164-172): an empty result returns the zeroed record; otherwise
the first row's "rows" value is returned as-is and the two byte counts
(defaulting to 0 when absent) are divided by 1024*1024.  `none` models
a `TypeError` raised by `/` on a non-numeric value, which the
enclosing except-clause turns into the zeroed record. -/
def tableStatsTry (results : List Row) : Option TableStatsRecord :=
  match results with
  | [] => some tableStatsZero
  | row :: _ =>
    match ((rowGet row "compressed_size").getD (Value.vInt 0)).asNum,
        ((rowGet row "uncompressed_size").getD (Value.vInt 0)).asNum with
    | some c, some u =>
      some { rows := (rowGet row "rows").getD (Value.vInt 0),
             compressed_size_mb := (c : Rat) / (1024 * 1024),
             uncompressed_size_mb := (u : Rat) / (1024 * 1024) }
    | _, _ => none

/-- `table_stats(name)` (lines 153-174) with the underlying
`self.query` call abstracted by its outcome: the whole computation is
total — every exception path lands on the zeroed record. -/
def table_stats (outcome : Except PyErr (List Row)) : TableStatsRecord :=
  match outcome with
  | Except.error _ => tableStatsZero
  | Except.ok results => (tableStatsTry results).getD tableStatsZero

/-- Claim C3: `table_stats` never raises (it is a total function into
records): when the underlying query raises any exception or returns an
empty result it returns exactly the zeroed record, and on a non-empty
result it returns the first row's "rows" value with the two byte
counts each divided by 1,048,576. -/
theorem c3_table_stats_never_raises :
    (∀ e : PyErr, table_stats (Except.error e) = tableStatsZero)
    ∧ table_stats (Except.ok []) = tableStatsZero
    ∧ (∀ (row : Row) (rest : List Row) (c u : Int),
        (rowGet row "compressed_size").getD (Value.vInt 0) = Value.vInt c →
        (rowGet row "uncompressed_size").getD (Value.vInt 0) = Value.vInt u →
        table_stats (Except.ok (row :: rest)) =
          { rows := (rowGet row "rows").getD (Value.vInt 0),
            compressed_size_mb := (c : Rat) / 1048576,
            uncompressed_size_mb := (u : Rat) / 1048576 }) := by
  refine ⟨fun _ => rfl, rfl, ?_⟩
  intro row rest c u hc hu
  simp only [table_stats, tableStatsTry, hc, hu]
  norm_num [Value.asNum]

/-- Witness for claim C3, at a concrete non-empty result: 5 rows,
2 MiB on disk, 4 MiB uncompressed. -/
theorem c3_table_stats_witness :
    table_stats (Except.ok
        [[("rows", Value.vInt 5), ("compressed_size", Value.vInt 2097152),
          ("uncompressed_size", Value.vInt 4194304)]])
      = { rows := Value.vInt 5, compressed_size_mb := 2, uncompressed_size_mb := 4 } := by
  have h := c3_table_stats_never_raises.2.2
    [("rows", Value.vInt 5), ("compressed_size", Value.vInt 2097152),
     ("uncompressed_size", Value.vInt 4194304)] [] 2097152 4194304 (by decide) (by decide)
  rw [h]
  norm_num [rowGet, List.find?]

/-! ## Client: `export_csv` (source lines 186-206)

`csv.DictWriter(f, fieldnames=columns)` with its defaults: delimiter
",", QUOTE_MINIMAL quoting, line terminator "\r\n" (the file is opened
with newline="" so it reaches the file verbatim), `restval=None`
rendered as the empty field, and `extrasaction="raise"` — a row with a
key outside `fieldnames` raises `ValueError`, which the method's
except-clause wraps and re-raises.  The model returns the file content
written on full success and `none` when the method raises (the
partially written file of an aborted run is not modelled). -/

/-- QUOTE_MINIMAL: a field needs quoting when it contains the
delimiter, the quote character or a line-terminator character. -/
def needsQuote (s : String) : Bool :=
  s.data.any (fun ch => ch == ',' || ch == '"' || ch == '\n' || ch == '\r')

/-- Doubling of every quote character inside a quoted field. -/
def csvEscape (s : String) : String :=
  String.mk (s.data.foldr (fun ch acc => if ch == '"' then '"' :: '"' :: acc else ch :: acc) [])

/-- One CSV field under minimal quoting, quote characters doubled. -/
def csvField (s : String) : String :=
  if needsQuote s then "\"" ++ csvEscape s ++ "\"" else s

/-- One CSV record: comma-joined fields plus the "\r\n" terminator. -/
def csvLine (fields : List String) : String :=
  String.intercalate "," (fields.map csvField) ++ "\r\n"

/-- `DictWriter._dict_to_list`: `none` when the row has a key outside
`fieldnames` (the `ValueError` of `extrasaction="raise"`), otherwise
one field per fieldname — the value's `csv` rendering when the key is
present, the empty `restval` rendering when absent. -/
def dictWriterRow (fieldnames : List String) (row : Row) : Option (List String) :=
  if (rowKeys row).all (fun k => fieldnames.contains k) then
    some (fieldnames.map (fun col => ((rowGet row col).map Value.csvStr).getD ""))
  else none

/-- `writer.writerows`: writes each row's record in order, raising
(`none`) at the first row the DictWriter rejects. -/
def writeRows (fieldnames : List String) : List Row → Option String
  | [] => some ""
  | row :: rest =>
    match dictWriterRow fieldnames row with
    | none => none
    | some fields =>
      match writeRows fieldnames rest with
      | none => none
      | some tailOut => some (csvLine fields ++ tailOut)

/-- `export_csv(sql, output_path)` (lines 186-206) with the query call
abstracted by its outcome: `some content` means the method returned
`True` having written exactly `content` to the file; `none` means it
raised the wrapped "Failed to export CSV" exception (on a query
failure, or on a `ValueError` from the DictWriter). -/
def export_csv (outcome : Except PyErr (List Row)) : Option String :=
  match outcome with
  | Except.error _ => none
  | Except.ok [] => some ""
  | Except.ok (first :: rest) =>
    let columns := rowKeys first
    match writeRows columns (first :: rest) with
    | none => none
    | some body => some (csvLine columns ++ body)

/-- The file content claim C6 describes for a non-empty result: a
header row of the first row's keys, then one CSV record per result
row in order. -/
def csvContentSpec (columns : List String) (results : List Row) : String :=
  csvLine columns ++ (results.map (fun row =>
    csvLine (columns.map (fun col => ((rowGet row col).map Value.csvStr).getD "")))).foldr
      (fun line acc => line ++ acc) ""

/-- `writeRows` succeeds and produces exactly the per-row records when
every row's keys lie within the fieldnames. -/
theorem writeRows_eq_of_keys_subset (fieldnames : List String) (results : List Row)
    (h : results.all (fun row => (rowKeys row).all (fun k => fieldnames.contains k)) = true) :
    writeRows fieldnames results = some ((results.map (fun row =>
      csvLine (fieldnames.map (fun col => ((rowGet row col).map Value.csvStr).getD "")))).foldr
        (fun line acc => line ++ acc) "") := by
  induction results with
  | nil => rfl
  | cons row rest ih =>
    simp only [List.all_cons, Bool.and_eq_true] at h
    simp only [writeRows, dictWriterRow, h.1, if_true, ih h.2, List.map_cons, List.foldr_cons]

/-- Counterexample to claim C6: on the non-empty result
`[{a: 1}, {a: 1, b: 2}]` the second row carries the extra key "b", the
DictWriter raises `ValueError`, and `export_csv` raises the wrapped
export error (`none` here) instead of returning `True` with a
header-plus-records file. -/
theorem c6_extra_key_raises :
    export_csv (Except.ok
        [[("a", Value.vInt 1)], [("a", Value.vInt 1), ("b", Value.vInt 2)]]) = none := by
  decide

/-- Claim C6 as amended: on an empty query result `export_csv` writes a
zero-byte file and returns `True`; on a non-empty result in which every
row's keys lie within the first row's keys, it writes a header row of
the first row's keys followed by one CSV record per result row and
returns `True`.  (A row with a key outside the first row's keys makes
the method raise the wrapped export error instead, per the
counterexample.) -/
theorem c6_export_csv_content :
    export_csv (Except.ok []) = some ""
    ∧ (∀ (first : Row) (rest : List Row),
        (first :: rest).all (fun row =>
            (rowKeys row).all (fun k => (rowKeys first).contains k)) = true →
        export_csv (Except.ok (first :: rest))
          = some (csvContentSpec (rowKeys first) (first :: rest))) := by
  refine ⟨rfl, ?_⟩
  intro first rest h
  simp only [export_csv, writeRows_eq_of_keys_subset (rowKeys first) (first :: rest) h,
    csvContentSpec]

/-- Witness for claim C6 at a concrete result: the second row lacks
"a" (rendered as an empty field) and its "b" value contains a comma
(so it is quoted). -/
theorem c6_export_csv_witness :
    export_csv (Except.ok
        [[("a", Value.vStr "x"), ("b", Value.vInt 2)], [("b", Value.vStr "y,z")]])
      = some "a,b\r\nx,2\r\n,\"y,z\"\r\n" := by
  have h := c6_export_csv_content.2
    [("a", Value.vStr "x"), ("b", Value.vInt 2)] [[("b", Value.vStr "y,z")]] (by decide)
  rw [h]
  decide
